import Mathlib

/-!
Verification of the ventura sprite-rendering core.

The development shallowly embeds the Rust source of the repository:
vectors and matrices follow the `glam` column-major layout and its
constructor formulas, the sprite pipeline's per-frame `prepare`/`draw`
work is modelled as pure functions producing explicit traces of queue
writes and render-pass commands, and the render context's surface
configuration and resize logic are modelled as pure state transformers.

Scalars are taken in an arbitrary linear ordered field `K` (the Rust
code computes with `f32`; identities proved here are the exact
real-number contracts).  Trigonometric and square-root primitives of
the float runtime are abstracted as an oracle `Trig` carrying the only
fact the code relies on (`sqrt 1 = 1`), so every definition stays
computable and theorems hold for every oracle.
-/

namespace Ventura

variable {K : Type} [LinearOrderedField K]

/-- Abstraction of the float runtime's `cos`, `sin` and `sqrt`
primitives used by `glam`.  `sqrt_one` is the single evaluation fact
the camera view computation needs. -/
structure Trig (K : Type) [Field K] where
  cos : K → K
  sin : K → K
  sqrt : K → K
  sqrt_one : sqrt 1 = 1

/-- `glam::Vec2`. -/
@[ext]
structure Vec2 (K : Type) where
  x : K
  y : K
deriving DecidableEq

/-- `glam::Vec3`. -/
@[ext]
structure Vec3 (K : Type) where
  x : K
  y : K
  z : K
deriving DecidableEq

/-- `glam::Vec4`. -/
@[ext]
structure Vec4 (K : Type) where
  x : K
  y : K
  z : K
  w : K
deriving DecidableEq

/-- `glam` column-major 4x4 matrix: the four fields are the columns. -/
@[ext]
structure Mat4 (K : Type) where
  x_axis : Vec4 K
  y_axis : Vec4 K
  z_axis : Vec4 K
  w_axis : Vec4 K
deriving DecidableEq

/-- `Vec2::extend`. -/
def Vec2.extend (v : Vec2 K) (z : K) : Vec3 K := ⟨v.x, v.y, z⟩

def Vec3.add (a b : Vec3 K) : Vec3 K := ⟨a.x + b.x, a.y + b.y, a.z + b.z⟩

def Vec3.sub (a b : Vec3 K) : Vec3 K := ⟨a.x - b.x, a.y - b.y, a.z - b.z⟩

/-- `glam::Vec3::dot`. -/
def Vec3.dot (a b : Vec3 K) : K := a.x * b.x + a.y * b.y + a.z * b.z

/-- `glam::Vec3::cross`. -/
def Vec3.cross (a b : Vec3 K) : Vec3 K :=
  ⟨a.y * b.z - a.z * b.y, a.z * b.x - a.x * b.z, a.x * b.y - a.y * b.x⟩

/-- `glam::Vec3::normalize`: multiplication by the reciprocal length
`1 / sqrt (dot v v)`. -/
def Vec3.normalize (tg : Trig K) (v : Vec3 K) : Vec3 K :=
  ⟨v.x * (1 / tg.sqrt (v.dot v)), v.y * (1 / tg.sqrt (v.dot v)),
   v.z * (1 / tg.sqrt (v.dot v))⟩

/-- `glam::Vec3::Z`. -/
def Vec3.unitZ : Vec3 K := ⟨0, 0, 1⟩

/-- `glam::Vec3::Y`. -/
def Vec3.unitY : Vec3 K := ⟨0, 1, 0⟩

def Vec4.scale (v : Vec4 K) (k : K) : Vec4 K := ⟨v.x * k, v.y * k, v.z * k, v.w * k⟩

def Vec4.add (a b : Vec4 K) : Vec4 K := ⟨a.x + b.x, a.y + b.y, a.z + b.z, a.w + b.w⟩

/-- `glam::Mat4::mul_vec4`: linear combination of the columns. -/
def Mat4.mulVec4 (m : Mat4 K) (v : Vec4 K) : Vec4 K :=
  (((m.x_axis.scale v.x).add (m.y_axis.scale v.y)).add (m.z_axis.scale v.z)).add
    (m.w_axis.scale v.w)

/-- `glam::Mat4::mul_mat4`: each result column is `self * rhs` column. -/
def Mat4.mul (a b : Mat4 K) : Mat4 K :=
  ⟨a.mulVec4 b.x_axis, a.mulVec4 b.y_axis, a.mulVec4 b.z_axis, a.mulVec4 b.w_axis⟩

/-- `glam::Mat4::from_translation`. -/
def Mat4.from_translation (t : Vec3 K) : Mat4 K :=
  ⟨⟨1, 0, 0, 0⟩, ⟨0, 1, 0, 0⟩, ⟨0, 0, 1, 0⟩, ⟨t.x, t.y, t.z, 1⟩⟩

/-- `glam::Mat4::from_rotation_z`; the `(sina, cosa)` pair comes from the
trig oracle exactly as `math::sin_cos(angle)` does in `glam`. -/
def Mat4.from_rotation_z (tg : Trig K) (angle : K) : Mat4 K :=
  ⟨⟨tg.cos angle, tg.sin angle, 0, 0⟩, ⟨-tg.sin angle, tg.cos angle, 0, 0⟩,
   ⟨0, 0, 1, 0⟩, ⟨0, 0, 0, 1⟩⟩

/-- `glam::Mat4::from_scale`. -/
def Mat4.from_scale (s : Vec3 K) : Mat4 K :=
  ⟨⟨s.x, 0, 0, 0⟩, ⟨0, s.y, 0, 0⟩, ⟨0, 0, s.z, 0⟩, ⟨0, 0, 0, 1⟩⟩

/-- Row `i`, column `j` entry of the column-major matrix. -/
def Vec4.comp (v : Vec4 K) : Fin 4 → K
  | 0 => v.x
  | 1 => v.y
  | 2 => v.z
  | 3 => v.w

def Mat4.col (m : Mat4 K) : Fin 4 → Vec4 K
  | 0 => m.x_axis
  | 1 => m.y_axis
  | 2 => m.z_axis
  | 3 => m.w_axis

def Mat4.entry (m : Mat4 K) (i j : Fin 4) : K := (m.col j).comp i

/-- `src/transform.rs`: the `Transform` component. -/
@[ext]
structure Transform (K : Type) where
  position : Vec2 K
  scale : Vec2 K
  rotation : K
deriving DecidableEq

/-- `Transform::matrix`: `translation * rotation * scale` exactly as in
`src/transform.rs` (Rust `*` is left associative). -/
def Transform.matrix (tg : Trig K) (t : Transform K) : Mat4 K :=
  ((Mat4.from_translation (t.position.extend 0)).mul
    (Mat4.from_rotation_z tg t.rotation)).mul
    (Mat4.from_scale (t.scale.extend 1))

/-- `Transform::default`: zero position, `32 x 32` scale, no rotation. -/
def Transform.default : Transform K := ⟨⟨0, 0⟩, ⟨32, 32⟩, 0⟩

/-- `Transform::from_translation`. -/
def Transform.from_translation (x y : K) : Transform K :=
  { Transform.default with position := ⟨x, y⟩ }

/-- The spec's Translate(x, y, 0) matrix, written entrywise by rows
(row `i`, column `j`), independent of the `glam` embedding. -/
def specTranslate (px py : K) : Fin 4 → Fin 4 → K
  | 0, 0 => 1
  | 0, 3 => px
  | 1, 1 => 1
  | 1, 3 => py
  | 2, 2 => 1
  | 3, 3 => 1
  | _, _ => 0

/-- The spec's RotateZ matrix with cosine `c` and sine `s`, written
entrywise by rows. -/
def specRotateZ (c s : K) : Fin 4 → Fin 4 → K
  | 0, 0 => c
  | 0, 1 => -s
  | 1, 0 => s
  | 1, 1 => c
  | 2, 2 => 1
  | 3, 3 => 1
  | _, _ => 0

/-- The spec's Scale(sx, sy, 1) matrix, written entrywise by rows. -/
def specScale (sx sy : K) : Fin 4 → Fin 4 → K
  | 0, 0 => sx
  | 1, 1 => sy
  | 2, 2 => 1
  | 3, 3 => 1
  | _, _ => 0

/-- Textbook matrix multiplication on row-indexed entry functions. -/
def specMul (A B : Fin 4 → Fin 4 → K) : Fin 4 → Fin 4 → K := fun i j =>
  A i 0 * B 0 j + A i 1 * B 1 j + A i 2 * B 2 j + A i 3 * B 3 j

set_option maxHeartbeats 1000000 in
lemma transform_matrix_closed (tg : Trig K) (t : Transform K) :
    Transform.matrix tg t =
      ⟨⟨t.scale.x * tg.cos t.rotation, t.scale.x * tg.sin t.rotation, 0, 0⟩,
       ⟨-(t.scale.y * tg.sin t.rotation), t.scale.y * tg.cos t.rotation, 0, 0⟩,
       ⟨0, 0, 1, 0⟩,
       ⟨t.position.x, t.position.y, 0, 1⟩⟩ := by
  ext <;>
    simp [Transform.matrix, Mat4.mul, Mat4.mulVec4,
      Mat4.from_translation, Mat4.from_rotation_z, Mat4.from_scale,
      Vec2.extend, Vec4.scale, Vec4.add] <;> ring

/-- Claim C3: for every transform with position `p`, rotation `θ` and
scale `s`, `Transform::matrix` returns exactly the 4x4 product
Translate(p.x, p.y, 0) · RotateZ(θ) · Scale(s.x, s.y, 1) in that
multiplication order; entrywise the result is the standard closed form
of that product. -/
theorem transform_matrix_is_translate_rotate_scale (tg : Trig K) (t : Transform K) :
    (∀ i j, (Transform.matrix tg t).entry i j =
      specMul
        (specMul (specTranslate t.position.x t.position.y)
          (specRotateZ (tg.cos t.rotation) (tg.sin t.rotation)))
        (specScale t.scale.x t.scale.y) i j) ∧
    Transform.matrix tg t =
      ⟨⟨t.scale.x * tg.cos t.rotation, t.scale.x * tg.sin t.rotation, 0, 0⟩,
       ⟨-(t.scale.y * tg.sin t.rotation), t.scale.y * tg.cos t.rotation, 0, 0⟩,
       ⟨0, 0, 1, 0⟩,
       ⟨t.position.x, t.position.y, 0, 1⟩⟩ := by
  refine ⟨fun i j => ?_, transform_matrix_closed tg t⟩
  rw [transform_matrix_closed tg t]
  fin_cases i <;> fin_cases j <;>
    simp [Mat4.entry, Mat4.col, Vec4.comp,
      specMul, specTranslate, specRotateZ, specScale] <;> ring

/-- `glam::Mat4::orthographic_rh`: reciprocal-width/height/depth form,
columns exactly as in `glam`. -/
def Mat4.orthographic_rh (left right bottom top near far : K) : Mat4 K :=
  ⟨⟨1 / (right - left) + 1 / (right - left), 0, 0, 0⟩,
   ⟨0, 1 / (top - bottom) + 1 / (top - bottom), 0, 0⟩,
   ⟨0, 0, 1 / (near - far), 0⟩,
   ⟨-(left + right) * (1 / (right - left)), -(top + bottom) * (1 / (top - bottom)),
    1 / (near - far) * near, 1⟩⟩

/-- `glam::Mat4::look_to_rh` with forward `f`, side `s` and up `u` basis
vectors. -/
def Mat4.look_to_rh (tg : Trig K) (eye dir up : Vec3 K) : Mat4 K :=
  ⟨⟨((dir.normalize tg).cross up).normalize tg |>.x,
    ((((dir.normalize tg).cross up).normalize tg).cross (dir.normalize tg)).x,
    -(dir.normalize tg).x, 0⟩,
   ⟨((dir.normalize tg).cross up).normalize tg |>.y,
    ((((dir.normalize tg).cross up).normalize tg).cross (dir.normalize tg)).y,
    -(dir.normalize tg).y, 0⟩,
   ⟨((dir.normalize tg).cross up).normalize tg |>.z,
    ((((dir.normalize tg).cross up).normalize tg).cross (dir.normalize tg)).z,
    -(dir.normalize tg).z, 0⟩,
   ⟨-(eye.dot (((dir.normalize tg).cross up).normalize tg)),
    -(eye.dot ((((dir.normalize tg).cross up).normalize tg).cross (dir.normalize tg))),
    eye.dot (dir.normalize tg), 1⟩⟩

/-- `glam::Mat4::look_at_rh eye center up = look_to_rh eye (center - eye) up`. -/
def Mat4.look_at_rh (tg : Trig K) (eye center up : Vec3 K) : Mat4 K :=
  Mat4.look_to_rh tg eye (center.sub eye) up

/-- `OrthographicProjection::matrix` from `src/src/render/camera.rs`:
a centered frustum built from half the window extent on each side. -/
def OrthographicProjection.matrix (window_width window_height : K) : Mat4 K :=
  Mat4.orthographic_rh (-(window_width / 2)) (window_width / 2)
    (-(window_height / 2)) (window_height / 2) (-1) 1

/-- `RenderContext::update_camera_buffer`: the view-projection value
written to the camera uniform buffer for the primary camera entity, with
`view = look_at_rh(position, position + Z, Y)` and
`data = projection * view` as in `src/src/render/context.rs`. -/
def RenderContext.cameraUniform (tg : Trig K) (width height : K)
    (camera : Transform K) : Mat4 K :=
  (OrthographicProjection.matrix width height).mul
    (Mat4.look_at_rh tg (camera.position.extend 0)
      ((camera.position.extend 0).add Vec3.unitZ) Vec3.unitY)

lemma look_at_unitZ (tg : Trig K) (p : Vec2 K) :
    Mat4.look_at_rh tg (p.extend 0) ((p.extend 0).add Vec3.unitZ) Vec3.unitY =
      ⟨⟨-1, 0, 0, 0⟩, ⟨0, 1, 0, 0⟩, ⟨0, 0, -1, 0⟩, ⟨p.x, -p.y, 0, 1⟩⟩ := by
  have hsub : ((p.extend 0).add Vec3.unitZ).sub (p.extend 0) = (Vec3.unitZ : Vec3 K) := by
    ext <;> simp [Vec3.add, Vec3.sub, Vec2.extend, Vec3.unitZ]
  have hf : Vec3.normalize tg Vec3.unitZ = (Vec3.unitZ : Vec3 K) := by
    ext <;> simp [Vec3.normalize, Vec3.dot, Vec3.unitZ, tg.sqrt_one]
  have hcross : (Vec3.unitZ : Vec3 K).cross Vec3.unitY = ⟨-1, 0, 0⟩ := by
    ext <;> simp [Vec3.cross, Vec3.unitZ, Vec3.unitY]
  have hs : Vec3.normalize tg (⟨-1, 0, 0⟩ : Vec3 K) = ⟨-1, 0, 0⟩ := by
    ext <;> simp [Vec3.normalize, Vec3.dot, tg.sqrt_one]
  rw [Mat4.look_at_rh, hsub, Mat4.look_to_rh, hf, hcross, hs]
  ext <;> simp [Vec3.cross, Vec3.dot, Vec3.unitZ, Vec3.unitY, Vec2.extend]

/-- Claim C4: for every window size `(w, h)` with `w > 0` and `h > 0`
and every camera transform, the view-projection uniform equals
`projection * view` where the projection is the centered orthographic
frustum with `left = -w/2`, `right = w/2`, `bottom = -h/2`,
`top = h/2` (verified by corner mapping: the frustum corners land on
clip `±1`), and the view is look-at of the camera position toward
`position + Z` with up `Y` (given in closed form). -/
theorem camera_uniform_is_projection_mul_view (tg : Trig K) (w h : K)
    (camera : Transform K) (hw : 0 < w) (hh : 0 < h) :
    RenderContext.cameraUniform tg w h camera =
      (Mat4.orthographic_rh (-(w / 2)) (w / 2) (-(h / 2)) (h / 2) (-1) 1).mul
        (Mat4.look_at_rh tg (camera.position.extend 0)
          ((camera.position.extend 0).add Vec3.unitZ) Vec3.unitY) ∧
    Mat4.look_at_rh tg (camera.position.extend 0)
        ((camera.position.extend 0).add Vec3.unitZ) Vec3.unitY =
      ⟨⟨-1, 0, 0, 0⟩, ⟨0, 1, 0, 0⟩, ⟨0, 0, -1, 0⟩,
       ⟨camera.position.x, -camera.position.y, 0, 1⟩⟩ ∧
    (OrthographicProjection.matrix w h).mulVec4 ⟨w / 2, h / 2, 0, 1⟩ =
      ⟨1, 1, 1 / 2, 1⟩ ∧
    (OrthographicProjection.matrix w h).mulVec4 ⟨-(w / 2), -(h / 2), 0, 1⟩ =
      ⟨-1, -1, 1 / 2, 1⟩ := by
  have hw' : w ≠ 0 := ne_of_gt hw
  have hh' : h ≠ 0 := ne_of_gt hh
  refine ⟨rfl, look_at_unitZ tg camera.position, ?_, ?_⟩ <;>
    ext <;>
      simp [OrthographicProjection.matrix, Mat4.orthographic_rh, Mat4.mulVec4,
        Vec4.scale, Vec4.add] <;>
      field_simp <;> ring

/-- Concrete trig oracle over the rationals used by witnesses. -/
def ratTrig : Trig ℚ := ⟨fun _ => 1, fun _ => 0, fun x => x, rfl⟩

/-- Witness for claim C4 at `w = 2`, `h = 2` and a camera at `(3, 4)`. -/
theorem camera_uniform_is_projection_mul_view_witness :
    RenderContext.cameraUniform ratTrig 2 2 ⟨⟨3, 4⟩, ⟨1, 1⟩, 0⟩ =
      (Mat4.orthographic_rh (-(2 / 2)) (2 / 2) (-(2 / 2)) (2 / 2) (-1) 1).mul
        (Mat4.look_at_rh ratTrig ((⟨3, 4⟩ : Vec2 ℚ).extend 0)
          (((⟨3, 4⟩ : Vec2 ℚ).extend 0).add Vec3.unitZ) Vec3.unitY) :=
  (camera_uniform_is_projection_mul_view ratTrig 2 2 ⟨⟨3, 4⟩, ⟨1, 1⟩, 0⟩
    (by norm_num) (by norm_num)).1

/-- The `wgpu` texture formats relevant to this repository's surface
and texture handling. -/
inductive TextureFormat
  | Bgra8Unorm
  | Bgra8UnormSrgb
  | Rgba8Unorm
  | Rgba8UnormSrgb
deriving DecidableEq

/-- `wgpu::TextureFormat::is_srgb` restricted to the formats above. -/
def TextureFormat.is_srgb : TextureFormat → Bool
  | .Bgra8UnormSrgb => true
  | .Rgba8UnormSrgb => true
  | _ => false

inductive PresentMode
  | AutoVsync
  | Fifo
  | Immediate
  | Mailbox
deriving DecidableEq

inductive CompositeAlphaMode
  | Auto
  | Opaque
deriving DecidableEq

/-- `wgpu::SurfaceCapabilities`: what the surface offers. -/
structure SurfaceCapabilities where
  formats : List TextureFormat
  present_modes : List PresentMode
  alpha_modes : List CompositeAlphaMode
deriving DecidableEq

/-- `wgpu::SurfaceConfiguration`; `usage` is kept as the raw bitflag
value (`RENDER_ATTACHMENT = 16` in both creation sites). -/
structure SurfaceConfiguration where
  usage : Nat
  format : TextureFormat
  width : Nat
  height : Nat
  present_mode : PresentMode
  alpha_mode : CompositeAlphaMode
  desired_maximum_frame_latency : Nat
  view_formats : List TextureFormat
deriving DecidableEq

/-- The surface configuration built in `RenderContext::new`
(`src/src/render/context.rs` lines 45-54): the format is the fixed
`Bgra8UnormSrgb`, the present mode `AutoVsync`, latency 2. -/
def RenderContext.newSurfaceConfiguration (width height : Nat) : SurfaceConfiguration :=
  ⟨16, .Bgra8UnormSrgb, width, height, .AutoVsync, .Auto, 2, []⟩

/-- The sRGB-preferring format selection of `RenderContext::init`
(`src/src/render/mod.rs` lines 75-81):
`formats.iter().find(is_srgb).copied().unwrap_or(formats[0])`;
`headD` stands for the indexing `formats[0]` of the nonempty list. -/
def chooseSurfaceFormat (formats : List TextureFormat) : TextureFormat :=
  (formats.find? fun f => f.is_srgb).getD (formats.headD .Bgra8Unorm)

/-- The surface configuration built in `RenderContext::init`
(`src/src/render/mod.rs` lines 83-92). -/
def RenderContext.initSurfaceConfiguration (caps : SurfaceCapabilities)
    (width height : Nat) : SurfaceConfiguration :=
  ⟨16, chooseSurfaceFormat caps.formats, width, height,
   caps.present_modes.headD .Fifo, caps.alpha_modes.headD .Auto, 2, []⟩

/-- Result of `RenderContext::resize`: the stored configuration, how
often `surface.configure` ran, and whether the warning was logged. -/
structure ResizeResult where
  config : SurfaceConfiguration
  configureCalls : Nat
  warned : Bool
deriving DecidableEq

/-- `RenderContext::resize` (`src/src/render/context.rs` lines
124-132): positive dimensions update the stored size and reconfigure
the surface once; otherwise only a warning is logged. -/
def RenderContext.resize (cfg : SurfaceConfiguration) (newWidth newHeight : Nat) :
    ResizeResult :=
  if 0 < newWidth ∧ 0 < newHeight then
    ⟨{ cfg with width := newWidth, height := newHeight }, 1, false⟩
  else
    ⟨cfg, 0, true⟩

/-- Claim C5: resizing with a zero dimension leaves the surface
configuration entirely unchanged and performs no reconfiguration;
resizing with both dimensions strictly positive updates the stored
width and height, reconfigures exactly once, and leaves every other
configuration field unchanged. -/
theorem resize_zero_ignored_positive_reconfigures
    (cfg : SurfaceConfiguration) (w h : Nat) :
    ((w = 0 ∨ h = 0) → RenderContext.resize cfg w h = ⟨cfg, 0, true⟩) ∧
    (0 < w → 0 < h →
      RenderContext.resize cfg w h =
        ⟨{ cfg with width := w, height := h }, 1, false⟩ ∧
      (RenderContext.resize cfg w h).config.usage = cfg.usage ∧
      (RenderContext.resize cfg w h).config.format = cfg.format ∧
      (RenderContext.resize cfg w h).config.present_mode = cfg.present_mode ∧
      (RenderContext.resize cfg w h).config.alpha_mode = cfg.alpha_mode ∧
      (RenderContext.resize cfg w h).config.desired_maximum_frame_latency =
        cfg.desired_maximum_frame_latency ∧
      (RenderContext.resize cfg w h).config.view_formats = cfg.view_formats ∧
      (RenderContext.resize cfg w h).config.width = w ∧
      (RenderContext.resize cfg w h).config.height = h) := by
  constructor
  · rintro (rfl | rfl) <;> simp [RenderContext.resize]
  · intro hw hh
    simp [RenderContext.resize, hw, hh]

/-- Concrete surface configuration used by witnesses. -/
def witnessConfiguration : SurfaceConfiguration :=
  ⟨16, .Bgra8UnormSrgb, 800, 600, .AutoVsync, .Auto, 2, []⟩

/-- Witness for claim C5: a zero-width resize is ignored and a `7 x 9`
resize reconfigures once. -/
theorem resize_zero_ignored_positive_reconfigures_witness :
    RenderContext.resize witnessConfiguration 0 5 = ⟨witnessConfiguration, 0, true⟩ ∧
    RenderContext.resize witnessConfiguration 7 9 =
      ⟨{ witnessConfiguration with width := 7, height := 9 }, 1, false⟩ :=
  ⟨(resize_zero_ignored_positive_reconfigures witnessConfiguration 0 5).1 (Or.inl rfl),
   ((resize_zero_ignored_positive_reconfigures witnessConfiguration 7 9).2
     (by decide) (by decide)).1⟩

/-- Counterexample to claim C6: `RenderContext::new`
(`src/src/render/context.rs`) configures the fixed format
`Bgra8UnormSrgb` without consulting the surface capabilities, so for a
surface offering only `Rgba8Unorm` the configured format is not among
the formats the surface offers. -/
theorem new_surface_format_not_from_capabilities :
    (RenderContext.newSurfaceConfiguration 800 600).format =
      TextureFormat.Bgra8UnormSrgb ∧
    (RenderContext.newSurfaceConfiguration 800 600).format ∉
      (SurfaceCapabilities.mk [TextureFormat.Rgba8Unorm] [PresentMode.Fifo]
        [CompositeAlphaMode.Auto]).formats := by
  decide

lemma chooseSurfaceFormat_spec (formats : List TextureFormat) (h : formats ≠ []) :
    chooseSurfaceFormat formats ∈ formats ∧
    ((∃ f ∈ formats, f.is_srgb = true) →
      (chooseSurfaceFormat formats).is_srgb = true) ∧
    ((∀ f ∈ formats, f.is_srgb = false) →
      chooseSurfaceFormat formats = formats.headD .Bgra8Unorm) := by
  rcases hfind : formats.find? (fun f => f.is_srgb) with _ | f
  · have hall := List.find?_eq_none.mp hfind
    rcases formats with _ | ⟨a, as⟩
    · exact absurd rfl h
    · refine ⟨?_, ?_, ?_⟩
      · simp [chooseSurfaceFormat, hfind]
      · rintro ⟨f, hf, hsrgb⟩
        exact absurd hsrgb (by simpa using hall f hf)
      · intro _
        simp [chooseSurfaceFormat, hfind]
  · have hmem := List.mem_of_find?_eq_some hfind
    have hsrgb := List.find?_some hfind
    refine ⟨?_, ?_, ?_⟩
    · simpa [chooseSurfaceFormat, hfind] using hmem
    · intro _
      simpa [chooseSurfaceFormat, hfind] using hsrgb
    · intro hall
      exact absurd (by simpa using hsrgb) (by simpa using hall _ hmem)

/-- Claim C6 (amended): at context creation, `RenderContext::init`
chooses the surface format from the formats the surface offers,
preferring an sRGB-capable one and falling back to the first offered
format, with the given dimensions, the first offered present mode and
a maximum frame latency of 2; `RenderContext::new` instead configures
the fixed format `Bgra8UnormSrgb` irrespective of the offered formats,
with the given dimensions, the `AutoVsync` present mode and a maximum
frame latency of 2. -/
theorem surface_configuration_amended (caps : SurfaceCapabilities) (w h : Nat)
    (hne : caps.formats ≠ []) :
    (RenderContext.initSurfaceConfiguration caps w h).format ∈ caps.formats ∧
    ((∃ f ∈ caps.formats, f.is_srgb = true) →
      ((RenderContext.initSurfaceConfiguration caps w h).format).is_srgb = true) ∧
    ((∀ f ∈ caps.formats, f.is_srgb = false) →
      (RenderContext.initSurfaceConfiguration caps w h).format =
        caps.formats.headD .Bgra8Unorm) ∧
    (RenderContext.initSurfaceConfiguration caps w h).width = w ∧
    (RenderContext.initSurfaceConfiguration caps w h).height = h ∧
    (RenderContext.initSurfaceConfiguration caps w h).present_mode =
      caps.present_modes.headD .Fifo ∧
    (RenderContext.initSurfaceConfiguration caps w h).desired_maximum_frame_latency
      = 2 ∧
    RenderContext.newSurfaceConfiguration w h =
      ⟨16, .Bgra8UnormSrgb, w, h, .AutoVsync, .Auto, 2, []⟩ := by
  obtain ⟨hmem, hpref, hfall⟩ := chooseSurfaceFormat_spec caps.formats hne
  exact ⟨hmem, hpref, hfall, rfl, rfl, rfl, rfl, rfl⟩

/-- Witness for the amended claim C6: with offered formats
`[Rgba8Unorm, Bgra8UnormSrgb]` the chosen format is among them. -/
theorem surface_configuration_amended_witness :
    (RenderContext.initSurfaceConfiguration
      (SurfaceCapabilities.mk [TextureFormat.Rgba8Unorm, TextureFormat.Bgra8UnormSrgb]
        [PresentMode.Fifo] [CompositeAlphaMode.Auto]) 640 480).format ∈
      [TextureFormat.Rgba8Unorm, TextureFormat.Bgra8UnormSrgb] :=
  (surface_configuration_amended
    (SurfaceCapabilities.mk [TextureFormat.Rgba8Unorm, TextureFormat.Bgra8UnormSrgb]
      [PresentMode.Fifo] [CompositeAlphaMode.Auto]) 640 480 (by decide)).1

/-- `image::ImageError` as far as this repository observes it: the
decode failure returned by `image::load_from_memory`. -/
inductive ImageError
  | Unsupported
  | Decoding
  | Limits
deriving DecidableEq

/-- The decoded image: pixel dimensions as reported by `dimensions()`
and the RGBA8 byte buffer produced by `to_rgba8()`. -/
structure DynamicImage where
  width : Nat
  height : Nat
  rgba : List Nat
deriving DecidableEq

/-- GPU-side operations issued by `Texture::from_bytes`, in order. -/
inductive TextureOp
  | createTexture (width height depth mipLevelCount sampleCount : Nat)
      (format : TextureFormat)
  | writeTexture (data : List Nat) (offset bytesPerRow rowsPerImage : Nat)
      (width height depth : Nat)
  | createView
  | createSampler
deriving DecidableEq

/-- The CPU-side handle `Texture` returned on success (the texture it
owns is identified by its creation extent here). -/
structure Texture where
  width : Nat
  height : Nat
deriving DecidableEq

/-- `Texture::from_bytes` (`src/src/render/texture.rs`): decode first
(`image::load_from_memory(bytes)?` — the decoder is the external
`image` crate, passed as a function), and only on success create the
GPU texture sized to the decoded dimensions with one mip level in
`Rgba8UnormSrgb`, enqueue the pixel upload, then create view and
sampler.  On a decode failure the error is returned before any GPU
operation is issued. -/
def Texture.from_bytes (decode : List Nat → Except ImageError DynamicImage)
    (bytes : List Nat) : Except ImageError Texture × List TextureOp :=
  match decode bytes with
  | .error e => (.error e, [])
  | .ok img =>
      (.ok ⟨img.width, img.height⟩,
       [.createTexture img.width img.height 1 1 1 .Rgba8UnormSrgb,
        .writeTexture img.rgba 0 (4 * img.width) img.height img.width img.height 1,
        .createView,
        .createSampler])

/-- Claim C7: for every input that the decoder rejects,
`Texture::from_bytes` returns the decode error and no GPU texture is
created or uploaded before the error is returned; for every decodable
input it creates a texture sized to the image's pixel dimensions with
one mip level in an sRGB format and immediately enqueues the pixel
upload. -/
theorem texture_from_bytes_decode_error_no_gpu_ops
    (decode : List Nat → Except ImageError DynamicImage) (bytes : List Nat) :
    (∀ e, decode bytes = .error e →
      Texture.from_bytes decode bytes = (.error e, [])) ∧
    (∀ img, decode bytes = .ok img →
      Texture.from_bytes decode bytes =
        (.ok ⟨img.width, img.height⟩,
         [.createTexture img.width img.height 1 1 1 .Rgba8UnormSrgb,
          .writeTexture img.rgba 0 (4 * img.width) img.height img.width img.height 1,
          .createView,
          .createSampler]) ∧
      TextureFormat.is_srgb .Rgba8UnormSrgb = true) := by
  constructor
  · intro e he
    simp [Texture.from_bytes, he]
  · intro img himg
    simp [Texture.from_bytes, himg, TextureFormat.is_srgb]

/-- Witness for claim C7: a decoder that rejects everything yields the
error and an empty GPU trace, and a decoder producing a `2 x 1` image
yields the corresponding creation and upload. -/
theorem texture_from_bytes_decode_error_no_gpu_ops_witness :
    Texture.from_bytes (fun _ => .error .Decoding) [0, 1, 2] =
      (.error .Decoding, []) ∧
    Texture.from_bytes (fun _ => .ok ⟨2, 1, [5, 5, 5, 5, 6, 6, 6, 6]⟩) [9] =
      (.ok ⟨2, 1⟩,
       [.createTexture 2 1 1 1 1 .Rgba8UnormSrgb,
        .writeTexture [5, 5, 5, 5, 6, 6, 6, 6] 0 8 1 2 1 1,
        .createView,
        .createSampler]) :=
  ⟨(texture_from_bytes_decode_error_no_gpu_ops (fun _ => .error .Decoding)
      [0, 1, 2]).1 .Decoding rfl,
   ((texture_from_bytes_decode_error_no_gpu_ops
      (fun _ => .ok ⟨2, 1, [5, 5, 5, 5, 6, 6, 6, 6]⟩) [9]).2
      ⟨2, 1, [5, 5, 5, 5, 6, 6, 6, 6]⟩ rfl).1⟩

/-- `Sprite` (`src/src/render/sprite/mod.rs`): a marker component
carrying no data. -/
structure Sprite where
deriving DecidableEq

/-- `Sprite::from_image`: logs the path and constructs the empty
component — the path does not enter the value. -/
def Sprite.from_image (path : String) : Sprite := {}

/-- `SpriteInstanceData` (`src/src/render/sprite/instance.rs`): one
model matrix per instance. -/
structure SpriteInstanceData (K : Type) where
  transform : Mat4 K
deriving DecidableEq

/-- An entity of the `hecs::World` as the sprite queries observe it. -/
structure Entity (K : Type) where
  transform : Option (Transform K)
  sprite : Option Sprite
deriving DecidableEq

/-- The entity store in its natural iteration order. -/
abbrev World (K : Type) := List (Entity K)

/-- `world.query::<(&Transform, &Sprite)>()`: the transforms of the
entities carrying both components, in store order. -/
def queryTransformSprite (world : World K) : List (Transform K) :=
  world.filterMap fun e =>
    match e.transform, e.sprite with
    | some t, some _ => some t
    | _, _ => none

/-- `MAX_INSTANCES` from `src/src/render/sprite/pipeline.rs`: the
element capacity of the instance storage buffer. -/
def MAX_INSTANCES : Nat := 10000

/-- One `queue.write_buffer` call: target offset and the records. -/
structure BufferWrite (K : Type) where
  offset : Nat
  data : List (SpriteInstanceData K)
deriving DecidableEq

/-- Result of `SpritePipeline::prepare`: the queue writes issued and
the new `instance_count`. -/
structure PrepareResult (K : Type) where
  writes : List (BufferWrite K)
  instance_count : Nat
deriving DecidableEq

/-- The instance list built by the query loop of
`SpritePipeline::prepare`. -/
def instanceData (tg : Trig K) (world : World K) : List (SpriteInstanceData K) :=
  (queryTransformSprite world).map fun t => ⟨Transform.matrix tg t⟩

/-- `SpritePipeline::prepare` (`src/src/render/sprite/pipeline.rs`
lines 111-121): build the instance list, upload it with a single
`write_buffer` at offset 0, record its length as `instance_count`.
The source performs no capacity check against `MAX_INSTANCES`. -/
def SpritePipeline.prepare (tg : Trig K) (world : World K) : PrepareResult K :=
  ⟨[⟨0, instanceData tg world⟩], (instanceData tg world).length⟩

/-- Effect of one `write_buffer` call on the buffer contents: the
records starting at `offset` are replaced by `data`, the rest kept. -/
def applyWrite (buf : List (SpriteInstanceData K)) (w : BufferWrite K) :
    List (SpriteInstanceData K) :=
  buf.take w.offset ++ w.data ++ buf.drop (w.offset + w.data.length)

/-- Buffer contents after all writes of a `prepare` call. -/
def applyPrepare (buf : List (SpriteInstanceData K)) (r : PrepareResult K) :
    List (SpriteInstanceData K) :=
  r.writes.foldl applyWrite buf

/-- The records the draw call references: the first `instance_count`
records of the buffer. -/
def activeInstances (buf : List (SpriteInstanceData K)) (count : Nat) :
    List (SpriteInstanceData K) :=
  buf.take count

/-- Claim C2: `prepare` with `N` sprite entities (`N ≤ capacity`)
issues exactly one upload of exactly the `N` model matrices starting
at offset 0 and one instance-count update to `N`; a second `prepare`
with a different entity set fully determines the active instance
records — they equal the second set's matrices, with nothing appended
from the first call. -/
theorem prepare_uploads_exactly_and_overwrites (tg : Trig K)
    (w1 w2 : World K) (buf : List (SpriteInstanceData K))
    (hbuf : buf.length = MAX_INSTANCES)
    (h1 : (queryTransformSprite w1).length ≤ MAX_INSTANCES)
    (h2 : (queryTransformSprite w2).length ≤ MAX_INSTANCES) :
    (SpritePipeline.prepare tg w1).writes = [⟨0, instanceData tg w1⟩] ∧
    (SpritePipeline.prepare tg w1).instance_count =
      (queryTransformSprite w1).length ∧
    activeInstances
        (applyPrepare (applyPrepare buf (SpritePipeline.prepare tg w1))
          (SpritePipeline.prepare tg w2))
        (SpritePipeline.prepare tg w2).instance_count =
      instanceData tg w2 := by
  refine ⟨rfl, by simp [SpritePipeline.prepare, instanceData], ?_⟩
  simp [SpritePipeline.prepare, applyPrepare, applyWrite, activeInstances,
    List.take_left]

/-- Witness for claim C2 with one sprite entity, then an empty set,
over a full 10000-record buffer. -/
theorem prepare_uploads_exactly_and_overwrites_witness :
    (SpritePipeline.prepare ratTrig
        [(⟨some Transform.default, some ⟨⟩⟩ : Entity ℚ)]).instance_count =
      (queryTransformSprite
        [(⟨some Transform.default, some ⟨⟩⟩ : Entity ℚ)]).length :=
  (prepare_uploads_exactly_and_overwrites ratTrig
    [⟨some Transform.default, some ⟨⟩⟩] []
    (List.replicate MAX_INSTANCES ⟨Transform.matrix ratTrig Transform.default⟩)
    (by simp)
    (by simp [queryTransformSprite, MAX_INSTANCES])
    (by simp [queryTransformSprite])).2.1

lemma query_replicate (n : Nat) (t : Transform K) (s : Sprite) :
    queryTransformSprite (List.replicate n ⟨some t, some s⟩) =
      List.replicate n t := by
  induction n with
  | zero => rfl
  | succ n ih =>
      simpa [queryTransformSprite, List.replicate_succ, List.filterMap_cons]
        using ih

/-- Claim C1 evidence: `prepare` performs no capacity check — whenever
the query yields more than `MAX_INSTANCES` entities it still issues the
single upload of all records, whose extent exceeds the allocated
capacity, and sets `instance_count` past the capacity; no error, clamp
or abort path exists in the code. -/
theorem prepare_exceeding_capacity_unchecked (tg : Trig K) (world : World K)
    (h : MAX_INSTANCES < (queryTransformSprite world).length) :
    (SpritePipeline.prepare tg world).writes = [⟨0, instanceData tg world⟩] ∧
    MAX_INSTANCES < (instanceData tg world).length ∧
    (SpritePipeline.prepare tg world).instance_count =
      (queryTransformSprite world).length := by
  exact ⟨rfl, by simpa [instanceData] using h,
    by simp [SpritePipeline.prepare, instanceData]⟩

/-- Witness for the C1 evidence at the failing input of 10001 sprite
entities: the upload extent exceeds the 10000-record capacity. -/
theorem prepare_exceeding_capacity_unchecked_witness :
    MAX_INSTANCES <
      (instanceData ratTrig
        (List.replicate 10001
          (⟨some Transform.default, some ⟨⟩⟩ : Entity ℚ))).length :=
  (prepare_exceeding_capacity_unchecked ratTrig
    (List.replicate 10001 ⟨some Transform.default, some ⟨⟩⟩)
    (by rw [query_replicate, List.length_replicate]; decide)).2.1

inductive BufferRef
  | spriteVertex
  | spriteIndex
deriving DecidableEq

inductive BindGroupRef
  | camera
  | spriteInstances
  | spriteTexture
deriving DecidableEq

inductive IndexFormat
  | Uint16
  | Uint32
deriving DecidableEq

/-- Render-pass commands as recorded by `SpritePipeline::draw`. -/
inductive RenderCommand
  | setPipeline
  | setVertexBuffer (slot : Nat) (buffer : BufferRef)
  | setIndexBuffer (buffer : BufferRef) (format : IndexFormat)
  | setBindGroup (index : Nat) (group : BindGroupRef)
  | drawIndexed (indexStart indexEnd : Nat) (baseVertex : Int)
      (instanceStart instanceEnd : Nat)
deriving DecidableEq

/-- `SpritePipeline::draw` (`src/src/render/sprite/pipeline.rs` lines
123-131): the exact render-pass command sequence recorded. -/
def SpritePipeline.draw (instance_count : Nat) : List RenderCommand :=
  [.setPipeline,
   .setVertexBuffer 0 .spriteVertex,
   .setIndexBuffer .spriteIndex .Uint16,
   .setBindGroup 0 .camera,
   .setBindGroup 1 .spriteInstances,
   .setBindGroup 2 .spriteTexture,
   .drawIndexed 0 6 0 0 instance_count]

def RenderCommand.isPipelineOrBindGroup : RenderCommand → Bool
  | .setPipeline => true
  | .setBindGroup _ _ => true
  | _ => false

def RenderCommand.isDrawCall : RenderCommand → Bool
  | .drawIndexed _ _ _ _ _ => true
  | _ => false

/-- Claim C8: every `SpritePipeline::draw` call binds, in order, the
pipeline state, the camera group at slot 0, the instance-storage group
at slot 1 and the texture group at slot 2; binds the vertex buffer at
slot 0 and the index buffer; and issues exactly one indexed draw with
the 6 quad indices over the instance range `0..instance_count`. -/
theorem sprite_draw_command_sequence (n : Nat) :
    (SpritePipeline.draw n).filter RenderCommand.isPipelineOrBindGroup =
      [.setPipeline, .setBindGroup 0 .camera, .setBindGroup 1 .spriteInstances,
       .setBindGroup 2 .spriteTexture] ∧
    RenderCommand.setVertexBuffer 0 .spriteVertex ∈ SpritePipeline.draw n ∧
    RenderCommand.setIndexBuffer .spriteIndex .Uint16 ∈ SpritePipeline.draw n ∧
    (SpritePipeline.draw n).filter RenderCommand.isDrawCall =
      [.drawIndexed 0 6 0 0 n] := by
  refine ⟨?_, ?_, ?_, ?_⟩ <;>
    simp [SpritePipeline.draw, RenderCommand.isPipelineOrBindGroup,
      RenderCommand.isDrawCall]

/-- Spawning sprite entities the way `run_startup_systems` does:
`(Sprite::from_image(path), transform)` per pair. -/
def spawnSprites (pairs : List (String × Transform K)) : World K :=
  pairs.map fun pt => ⟨some pt.2, some (Sprite.from_image pt.1)⟩

lemma spawnSprites_map_paths (l : List (String × String × Transform K)) :
    spawnSprites (l.map fun x => (x.1, x.2.2)) =
      (spawnSprites (l.map fun x => (x.2.1, x.2.2)) : World K) := by
  have hfun :
      ((fun pt : String × Transform K =>
          (⟨some pt.2, some (Sprite.from_image pt.1)⟩ : Entity K)) ∘
        fun x : String × String × Transform K => (x.1, x.2.2)) =
      ((fun pt : String × Transform K =>
          (⟨some pt.2, some (Sprite.from_image pt.1)⟩ : Entity K)) ∘
        fun x : String × String × Transform K => (x.2.1, x.2.2)) := by
    funext x
    rfl
  unfold spawnSprites
  rw [List.map_map, List.map_map, hfun]

/-- Claim C10: `Sprite::from_image` constructs equal components for
any two paths, so the `prepare` result and the draw commands are
independent of the image names used when spawning the sprites. -/
theorem sprite_path_irrelevant_to_rendering (tg : Trig K)
    (l : List (String × String × Transform K)) :
    (∀ p1 p2 : String, Sprite.from_image p1 = Sprite.from_image p2) ∧
    SpritePipeline.prepare tg (spawnSprites (l.map fun x => (x.1, x.2.2))) =
      SpritePipeline.prepare tg (spawnSprites (l.map fun x => (x.2.1, x.2.2))) ∧
    SpritePipeline.draw
        (SpritePipeline.prepare tg
          (spawnSprites (l.map fun x => (x.1, x.2.2)))).instance_count =
      SpritePipeline.draw
        (SpritePipeline.prepare tg
          (spawnSprites (l.map fun x => (x.2.1, x.2.2)))).instance_count := by
  refine ⟨fun p1 p2 => rfl, ?_, ?_⟩ <;> rw [spawnSprites_map_paths]

/-- `wgpu::SurfaceError` as matched by the frame-orchestration code. -/
inductive SurfaceError
  | Timeout
  | Outdated
  | Lost
  | OutOfMemory
  | Other
deriving DecidableEq

/-- Observable effect of one `RedrawRequested` arm: resulting surface
configuration, surface reconfiguration count, warnings logged, and
whether the handler asked the event loop to exit. -/
structure FrameStep where
  config : SurfaceConfiguration
  configureCalls : Nat
  warnings : Nat
  exitRequested : Bool
deriving DecidableEq

/-- The error-handling match on `render_context.render(..)` inside the
`RedrawRequested` arm of `VenturaApp::window_event`
(`src/src/application.rs` lines 61-82): `Lost`/`Outdated` log a
warning and call `RenderContext::resize` with the current window size;
any other error logs a warning and the frame is skipped; success
changes nothing.  No arm exits the event loop or panics. -/
def VenturaApp.handleRedraw (cfg : SurfaceConfiguration) (winW winH : Nat)
    (renderResult : Option SurfaceError) : FrameStep :=
  match renderResult with
  | none => ⟨cfg, 0, 0, false⟩
  | some .Lost =>
      ⟨(RenderContext.resize cfg winW winH).config,
       (RenderContext.resize cfg winW winH).configureCalls, 1, false⟩
  | some .Outdated =>
      ⟨(RenderContext.resize cfg winW winH).config,
       (RenderContext.resize cfg winW winH).configureCalls, 1, false⟩
  | some _ => ⟨cfg, 0, 1, false⟩

/-- Claim C9: every per-frame rendering error is handled entirely
within the redraw handler — a warning is logged, `Lost`/`Outdated`
trigger a resize with the current window dimensions, every other error
skips the frame leaving the configuration untouched — and the handler
never requests termination; a successful frame changes nothing. -/
theorem redraw_errors_contained (cfg : SurfaceConfiguration)
    (winW winH : Nat) (e : SurfaceError) :
    (VenturaApp.handleRedraw cfg winW winH (some e)).exitRequested = false ∧
    (VenturaApp.handleRedraw cfg winW winH (some e)).warnings = 1 ∧
    VenturaApp.handleRedraw cfg winW winH (some e) =
      (if e = .Lost ∨ e = .Outdated then
        ⟨(RenderContext.resize cfg winW winH).config,
         (RenderContext.resize cfg winW winH).configureCalls, 1, false⟩
      else ⟨cfg, 0, 1, false⟩) ∧
    VenturaApp.handleRedraw cfg winW winH none = ⟨cfg, 0, 0, false⟩ := by
  cases e <;> simp [VenturaApp.handleRedraw]

end Ventura
